import Mathlib

/-!
Verification of the CloudFront viewer-request path-resolution function
embedded in `src/infra/lib/infra-stack.ts` (the `AppendHtmlFunction`
handler, an inline JavaScript function).  The JavaScript source is:

  function handler(event) {
    var request = event.request;
    var uri = request.uri;
    // Don't modify requests that already have file extensions or end with a slash
    if (uri.includes('.') || uri.endsWith('/')) {
      return request;
    }
    // Don't modify if it's trying to access a specific file in a folder
    if (uri.split('/').length > 2 && !uri.endsWith('/')) {
      return request;
    }
    // Append .html to the URI
    request.uri = uri + '.html';
    return request;
  }

A JavaScript string is modeled as its sequence of characters (`List Char`);
every path occurring here is ASCII, so code units and characters coincide.
The three string operations the handler uses are mirrored one-for-one below.
-/

/-- A JavaScript string, modeled as its sequence of characters. -/
abbrev JSString := List Char

/-- JavaScript `s.includes(c)` for a single-character search string `c`:
true iff the character occurs somewhere in the string. -/
def jsIncludes (s : JSString) (c : Char) : Bool :=
  s.contains c

/-- JavaScript `s.endsWith(c)` for a single-character search string `c`:
true iff the string is nonempty and its last character is `c`. -/
def jsEndsWith (s : JSString) (c : Char) : Bool :=
  match s.getLast? with
  | some d => d == c
  | none => false

/-- JavaScript `s.split(c)` for a single-character separator `c`: the list of
(possibly empty) chunks between occurrences of `c`; `"".split(c)` is `[""]`.
This is exactly `List.splitOn`. -/
def jsSplit (s : JSString) (c : Char) : List JSString :=
  s.splitOn c

/-- The characters of the literal `'.html'` appended by the handler. -/
def htmlSuffix : JSString := ['.', 'h', 't', 'm', 'l']

/-- The request object carried by a viewer-request event: the handler only
reads and writes its `uri` field. -/
structure Request where
  uri : JSString
  deriving DecidableEq, Repr

/-- The event object passed to a CloudFront function handler. -/
structure Event where
  request : Request
  deriving DecidableEq, Repr

/-- The CloudFront function `handler` from `infra-stack.ts`, translated
clause for clause: return the request unchanged when the URI contains `'.'`
or ends with `'/'`; return it unchanged when splitting on `'/'` gives more
than 2 chunks and the URI does not end with `'/'`; otherwise append
`'.html'` to the URI. -/
def handler (event : Event) : Request :=
  let request := event.request
  let uri := request.uri
  if jsIncludes uri '.' || jsEndsWith uri '/' then
    request
  else if (jsSplit uri '/').length > 2 && !(jsEndsWith uri '/') then
    request
  else
    { request with uri := uri ++ htmlSuffix }

/-- The path-to-path mapping the handler induces: the URI of the returned
request, as a function of the URI of the incoming request. -/
def resolvePath (uri : JSString) : JSString :=
  (handler ⟨⟨uri⟩⟩).uri

/-! ### Helper lemmas shared by several theorems -/

/-- The URI returned by the handler depends only on the incoming URI. -/
theorem handler_uri (e : Event) : (handler e).uri = resolvePath e.request.uri := by
  obtain ⟨⟨u⟩⟩ := e
  rfl

/-- Every run of the handler either leaves the URI alone or appends `'.html'`. -/
theorem resolvePath_cases (p : JSString) :
    resolvePath p = p ∨ resolvePath p = p ++ htmlSuffix := by
  unfold resolvePath handler
  dsimp only
  split
  · exact Or.inl rfl
  · split
    · exact Or.inl rfl
    · exact Or.inr rfl

/-- A URI containing a dot or ending in a slash takes the handler's first
early return. -/
theorem resolvePath_of_first_guard (p : JSString)
    (h : (jsIncludes p '.' || jsEndsWith p '/') = true) : resolvePath p = p := by
  unfold resolvePath handler
  dsimp only
  rw [if_pos h]

/-- Appending `'.html'` always produces a URI that contains a dot. -/
theorem jsIncludes_append_htmlSuffix (p : JSString) :
    jsIncludes (p ++ htmlSuffix) '.' = true := by
  simp [jsIncludes, htmlSuffix, List.contains_cons]

/-! ### Claim theorems -/

/-- Claim C1: for every URI path that contains a `'.'` character or ends with
`'/'`, the path-resolution function returns the path unchanged. -/
theorem C1_unchanged_of_dot_or_slash (p : JSString)
    (h : jsIncludes p '.' = true ∨ jsEndsWith p '/' = true) :
    resolvePath p = p := by
  apply resolvePath_of_first_guard
  rcases h with h | h <;> simp [h]

/-- Claim C1 witness: `/style.css` contains a dot and is returned unchanged. -/
theorem C1_witness :
    (jsIncludes "/style.css".toList '.' = true ∨
      jsEndsWith "/style.css".toList '/' = true) ∧
    resolvePath "/style.css".toList = "/style.css".toList :=
  ⟨Or.inl (by decide),
    C1_unchanged_of_dot_or_slash "/style.css".toList (Or.inl (by decide))⟩

/-- Claim C2: for every top-level extensionless path (no `'.'`, not ending in
`'/'`, splitting on `'/'` yields at most 2 chunks) the path-resolution
function appends the literal suffix `'.html'`. -/
theorem C2_appends_html_toplevel (p : JSString)
    (hdot : jsIncludes p '.' = false) (hslash : jsEndsWith p '/' = false)
    (hseg : (jsSplit p '/').length ≤ 2) :
    resolvePath p = p ++ htmlSuffix := by
  unfold resolvePath handler
  dsimp only
  rw [if_neg, if_neg]
  · simp [hslash, Nat.not_lt.mpr hseg]
  · simp [hdot, hslash]

/-- Claim C2 witness: `/about` satisfies the three guards and maps to
`/about.html`. -/
theorem C2_witness :
    (jsIncludes "/about".toList '.' = false ∧
      jsEndsWith "/about".toList '/' = false ∧
      (jsSplit "/about".toList '/').length ≤ 2) ∧
    resolvePath "/about".toList = "/about".toList ++ htmlSuffix ∧
    "/about".toList ++ htmlSuffix = "/about.html".toList :=
  ⟨⟨by decide, by decide, by decide⟩,
    C2_appends_html_toplevel "/about".toList (by decide) (by decide) (by decide),
    by decide⟩

/-- Claim C3: for every extensionless nested path (no `'.'`, not ending in
`'/'`, splitting on `'/'` yields more than 2 chunks) the path-resolution
function returns the path unchanged. -/
theorem C3_unchanged_nested (p : JSString)
    (hdot : jsIncludes p '.' = false) (hslash : jsEndsWith p '/' = false)
    (hseg : 2 < (jsSplit p '/').length) :
    resolvePath p = p := by
  unfold resolvePath handler
  dsimp only
  rw [if_neg, if_pos]
  · simp [hslash, hseg]
  · simp [hdot, hslash]

/-- Claim C3 witness: `/blog/post-one` is extensionless, nested, and passed
through unmodified. -/
theorem C3_witness :
    (jsIncludes "/blog/post-one".toList '.' = false ∧
      jsEndsWith "/blog/post-one".toList '/' = false ∧
      2 < (jsSplit "/blog/post-one".toList '/').length) ∧
    resolvePath "/blog/post-one".toList = "/blog/post-one".toList :=
  ⟨⟨by decide, by decide, by decide⟩,
    C3_unchanged_nested "/blog/post-one".toList (by decide) (by decide) (by decide)⟩

/-- Claim C4 counterexample: the claim that applying the function twice to
`/about` yields `/about.html` and then `/about.html.html` is false — the
second application leaves `/about.html` unchanged, because it contains a
dot. -/
theorem C4_counterexample :
    ¬ (resolvePath "/about".toList = "/about.html".toList ∧
       resolvePath (resolvePath "/about".toList) = "/about.html.html".toList) := by
  decide

/-- Claim C4 (amended): applying the function twice to `/about` yields
`/about.html` after the first application and `/about.html` again after the
second — the function is idempotent at `/about`, since the appended
`'.html'` suffix makes the result contain a dot. -/
theorem C4_amended_about_idempotent :
    resolvePath "/about".toList = "/about.html".toList ∧
    resolvePath (resolvePath "/about".toList) = "/about.html".toList := by
  decide

/-- Claim C5: on the input path `/`, the path-resolution function returns
`/` unchanged; `/` satisfies the ends-with-slash guard. -/
theorem C5_root_unchanged :
    jsEndsWith "/".toList '/' = true ∧ resolvePath "/".toList = "/".toList := by
  decide

/-- Claim C6: the path-resolution function is total over all string inputs —
for every input string (whether or not it begins with `'/'`) it returns a
path, namely the input itself or the input with `'.html'` appended; it has
no failing outcome. -/
theorem C6_total (p : JSString) :
    ∃ q : JSString, resolvePath p = q ∧ (q = p ∨ q = p ++ htmlSuffix) :=
  ⟨resolvePath p, rfl, resolvePath_cases p⟩

/-- Claim C7: the handler is deterministic and side-effect-free — any two
invocations on events carrying the same URI produce the same output URI,
with no dependence on anything outside the request. -/
theorem C7_deterministic (a b : Event)
    (h : a.request.uri = b.request.uri) :
    (handler a).uri = (handler b).uri := by
  rw [handler_uri, handler_uri, h]

/-- Claim C7 witness: two invocations on events with URI `/about` agree. -/
theorem C7_witness :
    ((⟨⟨"/about".toList⟩⟩ : Event).request.uri =
      (⟨⟨"/about".toList⟩⟩ : Event).request.uri) ∧
    (handler ⟨⟨"/about".toList⟩⟩).uri = (handler ⟨⟨"/about".toList⟩⟩).uri :=
  ⟨rfl, C7_deterministic ⟨⟨"/about".toList⟩⟩ ⟨⟨"/about".toList⟩⟩ rfl⟩

/-- Claim C8: for every input path, the output is either the input itself or
the input with `'.html'` appended; the input is always an initial segment of
the output and the output is never shorter than the input. -/
theorem C8_output_extends_input (p : JSString) :
    (resolvePath p = p ∨ resolvePath p = p ++ htmlSuffix) ∧
    (∃ t, resolvePath p = p ++ t) ∧
    p.length ≤ (resolvePath p).length := by
  refine ⟨resolvePath_cases p, ?_, ?_⟩
  · rcases resolvePath_cases p with h | h
    · exact ⟨[], by simp [h]⟩
    · exact ⟨htmlSuffix, h⟩
  · rcases resolvePath_cases p with h | h <;> simp [h]

/-- Claim C9: the path-resolution function is idempotent on every input —
any appended `'.html'` suffix makes the result contain a dot, so a second
application returns it unchanged. -/
theorem C9_idempotent (p : JSString) :
    resolvePath (resolvePath p) = resolvePath p := by
  rcases resolvePath_cases p with h | h
  · rw [h]
    exact h
  · rw [h]
    apply resolvePath_of_first_guard
    simp [jsIncludes_append_htmlSuffix]

/-- Claim C10: on the empty string input, which contains no dot, does not
end with a slash, and splits on `'/'` into a single chunk, the
path-resolution function appends the suffix and returns `.html`. -/
theorem C10_empty_string :
    jsIncludes "".toList '.' = false ∧ jsEndsWith "".toList '/' = false ∧
    (jsSplit "".toList '/').length = 1 ∧
    resolvePath "".toList = ".html".toList := by
  decide
